import Mathlib

/-!
Shallow embedding of NebulousLabs/go-upnp (src/upnp.go) for checking the
natural-language specification against the code.

The engine's collaborators (the goupnp toolkit, the Go net package and the
router itself) are modelled as explicit inputs: a `Client` record of
function-valued remote actions, a search-result environment for `Discover`,
a URL environment for `Load`, and a `net.Interfaces()` result for
`getInternalIP`.  The relevant Go standard-library helpers
(`net.SplitHostPort`, `net.ParseIP` for dotted-quad IPv4,
`net.IPNet.Contains`) are embedded faithfully from their stdlib source.
Operations that invoke remote actions additionally return the ordered list
of router actions they issued, so that claims about which actions are (not)
attempted are statable.
-/

namespace GoUpnp

/-- Error values are modelled by their Go message strings. -/
abbrev ErrMsg := String

/-! ## IPv4 addresses, `net.IPNet.Contains`, `net.SplitHostPort`, `net.ParseIP` -/

/-- A 4-byte IPv4 address; each field is a byte value (0–255). -/
structure IPv4 where
  b0 : Nat
  b1 : Nat
  b2 : Nat
  b3 : Nat
deriving DecidableEq, Repr

/-- `net.IPNet`: an address together with its subnet mask. -/
structure IPNet where
  ip : IPv4
  mask : IPv4
deriving DecidableEq, Repr

/-- `net.IPNet.Contains`: byte-wise, `nn[i]&m[i] == ip[i]&m[i]` for all bytes. -/
def IPNet.contains (n : IPNet) (ip : IPv4) : Bool :=
  (n.ip.b0 &&& n.mask.b0 == ip.b0 &&& n.mask.b0) &&
  (n.ip.b1 &&& n.mask.b1 == ip.b1 &&& n.mask.b1) &&
  (n.ip.b2 &&& n.mask.b2 == ip.b2 &&& n.mask.b2) &&
  (n.ip.b3 &&& n.mask.b3 == ip.b3 &&& n.mask.b3)

/-- `net.IP.String` for a 4-byte address: dotted-quad decimal. -/
def ipv4ToString (ip : IPv4) : String :=
  toString ip.b0 ++ "." ++ toString ip.b1 ++ "." ++ toString ip.b2 ++ "." ++ toString ip.b3

/-- Index of the first occurrence of `c`, scanning with accumulator `k`. -/
def firstIdxAux (c : Char) : List Char → Nat → Option Nat
  | [], _ => none
  | x :: xs, k => if x = c then some k else firstIdxAux c xs (k + 1)

/-- Index of the first occurrence of `c` in `l` (Go `bytealg.IndexByteString`). -/
def firstIdx (c : Char) (l : List Char) : Option Nat :=
  firstIdxAux c l 0

/-- Index of the last occurrence of `c`, scanning with accumulator `k` and
best-so-far `best` (Go's `last`). -/
def lastIdxAux (c : Char) : List Char → Nat → Option Nat → Option Nat
  | [], _, best => best
  | x :: xs, k, best => lastIdxAux c xs (k + 1) (if x = c then some k else best)

/-- Index of the last occurrence of `c` in `l`. -/
def lastIdx (c : Char) (l : List Char) : Option Nat :=
  lastIdxAux c l 0 none

/-- `net.SplitHostPort(hostPort)`: splits `"host:port"` into host and port.
Returns `(host, port, none)` on success and `("", "", some reason)` on
failure, mirroring Go's `addrErr` which returns empty host and port
alongside the error.  Embedded from the Go standard library
(`net/ipsock.go`); the port starts after the last colon, and a leading `[`
introduces a bracketed (IPv6) host. -/
def splitHostPort (hostPort : String) : String × String × Option ErrMsg :=
  let s := hostPort.data
  match lastIdx ':' s with
  | none => ("", "", some "missing port in address")
  | some i =>
    if s.head? = some '[' then
      match firstIdx ']' s with
      | none => ("", "", some "missing ']' in address")
      | some e =>
        if e + 1 = s.length then
          ("", "", some "missing port in address")
        else if e + 1 = i then
          -- host is s[1:e], scanning for stray brackets past positions 1 / e+1
          if (firstIdx '[' (s.drop 1)).isSome then
            ("", "", some "missing brackets in address")
          else if (firstIdx ']' (s.drop (e + 1))).isSome then
            ("", "", some "unexpected ']' in address")
          else
            (String.mk ((s.drop 1).take (e - 1)), String.mk (s.drop (i + 1)), none)
        else if s.get? (e + 1) = some ':' then
          ("", "", some "too many colons in address")
        else
          ("", "", some "missing port in address")
    else
      let host := s.take i
      if (firstIdx ':' host).isSome then
        ("", "", some "too many colons in address")
      else if (firstIdx '[' s).isSome then
        ("", "", some "missing brackets in address")
      else if (firstIdx ']' s).isSome then
        ("", "", some "unexpected ']' in address")
      else
        (String.mk host, String.mk (s.drop (i + 1)), none)

/-- Go's `dtoi` digit loop: consume decimal digits, accumulating into `n`;
fail once the accumulator reaches `0xFFFFFF` (Go's `big`). -/
def dtoiLoop (n : Nat) : List Char → Option (Nat × List Char)
  | [] => some (n, [])
  | c :: cs =>
    if '0' ≤ c ∧ c ≤ '9' then
      let n2 := n * 10 + (c.toNat - '0'.toNat)
      if 0xFFFFFF ≤ n2 then none else dtoiLoop n2 cs
    else
      some (n, c :: cs)

/-- Go's `dtoi`: parse a decimal number prefix; fails when there is no
leading digit or on overflow. -/
def dtoi : List Char → Option (Nat × List Char)
  | [] => none
  | c :: cs =>
    if '0' ≤ c ∧ c ≤ '9' then dtoiLoop 0 (c :: cs) else none

/-- One dotted-quad field: a decimal number at most `0xFF`. -/
def parseField (l : List Char) : Option (Nat × List Char) :=
  match dtoi l with
  | none => none
  | some (n, rest) => if 0xFF < n then none else some (n, rest)

/-- Go's `parseIPv4`: four dot-separated byte fields consuming the whole
string. -/
def parseIPv4 (l : List Char) : Option IPv4 :=
  match parseField l with
  | none => none
  | some (a, r1) =>
    match r1 with
    | '.' :: r1t =>
      match parseField r1t with
      | none => none
      | some (b, r2) =>
        match r2 with
        | '.' :: r2t =>
          match parseField r2t with
          | none => none
          | some (c, r3) =>
            match r3 with
            | '.' :: r3t =>
              match parseField r3t with
              | none => none
              | some (d, r4) =>
                match r4 with
                | [] => some ⟨a, b, c, d⟩
                | _ :: _ => none
            | _ => none
        | _ => none
    | _ => none

/-- Scan for the first `'.'` or `':'` (Go `ParseIP`'s dispatch loop):
`some true` means a `'.'` was seen first (IPv4 form), `some false` a `':'`
(IPv6 form), `none` neither. -/
def classifyIP : List Char → Option Bool
  | [] => none
  | c :: cs =>
    if c = '.' then some true
    else if c = ':' then some false
    else classifyIP cs

/-- `net.ParseIP`: dispatch on the first `'.'`/`':'`; dotted-quad strings go
through `parseIPv4`, strings with neither separator fail.  IPv6 textual
forms are modelled as unparseable: no claim exercises an IPv6 literal, and
every concrete input used below is IPv4 or empty. -/
def parseIP (s : String) : Option IPv4 :=
  match classifyIP s.data with
  | some true => parseIPv4 s.data
  | some false => none
  | none => none

/-! ## The collaborator model -/

/-- One address bound to a local interface, as delivered by `iface.Addrs()`:
the Go code type-switches on `*net.IPNet` and silently skips every other
address type, modelled by `other`. -/
inductive NetAddr where
  | ipNet (n : IPNet)
  | other
deriving DecidableEq, Repr

/-- A local network interface; `addrs` is the result of `iface.Addrs()`,
which may fail. -/
structure NetInterface where
  addrs : Except ErrMsg (List NetAddr)

/-- The control client selected for a handle (a `WANIPConnection1` or
`WANPPPConnection1` from the toolkit).  Remote actions are function-valued:
the router's response to each argument tuple.  `urlBaseHost` is
`GetServiceClient().RootDevice.URLBase.Host`; `location` is
`GetServiceClient().Location.String()`. -/
structure Client where
  getExternalIPAddress : Except ErrMsg String
  addPortMapping : String → Nat → String → Nat → String → Bool → String → Nat → Except ErrMsg Unit
  deletePortMapping : String → Nat → String → Except ErrMsg Unit
  urlBaseHost : String
  location : String

/-- `upnpDevice`: the IGD handle wrapping one selected client. -/
structure UpnpDevice where
  client : Client

/-- A router action issued by the engine, with its full argument tuple. -/
inductive Action where
  | addPortMapping (remoteHost : String) (extPort : Nat) (proto : String)
      (intPort : Nat) (intClient : String) (enabled : Bool)
      (desc : String) (lease : Nat)
  | deletePortMapping (remoteHost : String) (extPort : Nat) (proto : String)
deriving DecidableEq, Repr

/-! ## The Gateway Client operations -/

/-- `ExternalIP`: returns `u.client.GetExternalIPAddress()` verbatim. -/
def ExternalIP (u : UpnpDevice) : Except ErrMsg String :=
  u.client.getExternalIPAddress

/-- `Location`: returns the device's location URL string. -/
def Location (u : UpnpDevice) : String :=
  u.client.location

/-- Inner loop of `getInternalIP` over one interface's addresses: the first
`*net.IPNet` whose subnet contains `devIP` yields `x.IP.String()`. -/
def firstContaining (devIP : IPv4) : List NetAddr → Option String
  | [] => none
  | NetAddr.ipNet n :: rest =>
    if n.contains devIP then some (ipv4ToString n.ip) else firstContaining devIP rest
  | NetAddr.other :: rest => firstContaining devIP rest

/-- Outer loop of `getInternalIP` over the interfaces: `iface.Addrs()`
failure is returned at once; otherwise scan this interface's addresses and
fall through to the next interface. -/
def getInternalIPAux (devIP : IPv4) : List NetInterface → Except ErrMsg String
  | [] => Except.error "could not determine internal IP"
  | iface :: rest =>
    match iface.addrs with
    | Except.error e => Except.error e
    | Except.ok addrs =>
      match firstContaining devIP addrs with
      | some s => Except.ok s
      | none => getInternalIPAux devIP rest

/-- `getInternalIP` (upnp.go:94–123): split the device's advertised base
host, DISCARDING the split error (`host, _, _ :=`); parse the host as an IP
literal, failing with the router-internal-IP error when it is not one; then
scan `net.Interfaces()` (whose failure propagates) for the first subnet
containing the device address.  `ifacesRes` is the `net.Interfaces()`
result. -/
def getInternalIP (u : UpnpDevice) (ifacesRes : Except ErrMsg (List NetInterface)) :
    Except ErrMsg String :=
  match parseIP (splitHostPort u.client.urlBaseHost).1 with
  | none => Except.error "could not determine router's internal IP"
  | some devIP =>
    match ifacesRes with
    | Except.error e => Except.error e
    | Except.ok ifaces => getInternalIPAux devIP ifaces

/-- `Forward` (upnp.go:66–77): resolve the internal IP, then AddPortMapping
for TCP, then for UDP, stopping at the first failure.  Besides the result,
returns the ordered list of router actions actually issued. -/
def Forward (u : UpnpDevice) (ifacesRes : Except ErrMsg (List NetInterface))
    (port : Nat) (desc : String) : Except ErrMsg Unit × List Action :=
  match getInternalIP u ifacesRes with
  | Except.error e => (Except.error e, [])
  | Except.ok ip =>
    match u.client.addPortMapping "" port "TCP" port ip true desc 0 with
    | Except.error e =>
      (Except.error e, [Action.addPortMapping "" port "TCP" port ip true desc 0])
    | Except.ok _ =>
      (u.client.addPortMapping "" port "UDP" port ip true desc 0,
       [Action.addPortMapping "" port "TCP" port ip true desc 0,
        Action.addPortMapping "" port "UDP" port ip true desc 0])

/-- `Clear` (upnp.go:80–86): DeletePortMapping for TCP, then for UDP,
stopping at the first failure; each call carries only the external port and
protocol (and the empty remote host). -/
def Clear (u : UpnpDevice) (port : Nat) : Except ErrMsg Unit × List Action :=
  match u.client.deletePortMapping "" port "TCP" with
  | Except.error e => (Except.error e, [Action.deletePortMapping "" port "TCP"])
  | Except.ok _ =>
    (u.client.deletePortMapping "" port "UDP",
     [Action.deletePortMapping "" port "TCP", Action.deletePortMapping "" port "UDP"])

/-! ## The Discovery Orchestrator -/

/-- Which toolkit search `Discover` invoked, in order. -/
inductive SearchAction where
  | searchPPP
  | searchIP
deriving DecidableEq, Repr

/-- The triple returned by `internetgateway1.NewWANPPPConnection1Clients` /
`NewWANIPConnection1Clients`: the constructed clients, the per-client
errors, and the overall search error. -/
structure SearchResult where
  clients : List Client
  clientErrs : List ErrMsg
  err : Option ErrMsg

/-- The network's answers to the two searches `Discover` can issue. -/
structure DiscoverEnv where
  pppSearch : SearchResult
  ipSearch : SearchResult

/-- `Discover` (upnp.go:130–140): search for WANPPPConnection1 clients,
discarding both error returns; if any client was found wrap the first,
otherwise search for WANIPConnection1 clients (errors again discarded) and
wrap the first; fail with the no-gateway error when both lists are empty.
Besides the result, returns the ordered list of searches issued. -/
def Discover (env : DiscoverEnv) : Except ErrMsg UpnpDevice × List SearchAction :=
  match env.pppSearch.clients with
  | c :: _ => (Except.ok ⟨c⟩, [SearchAction.searchPPP])
  | [] =>
    match env.ipSearch.clients with
    | c :: _ => (Except.ok ⟨c⟩, [SearchAction.searchPPP, SearchAction.searchIP])
    | [] => (Except.error "no UPnP-enabled gateway found",
             [SearchAction.searchPPP, SearchAction.searchIP])

/-- An opaque parsed URL (`*url.URL`); only its identity matters to the
engine, which hands it unchanged to the by-URL constructors. -/
structure URL where
  raw : String
deriving DecidableEq, Repr

/-- The collaborator answers available to `Load`: the outcome of
`url.Parse(rawurl)` and, for each parsed URL, the pair returned by
`NewWANPPPConnection1ClientsByURL` / `NewWANIPConnection1ClientsByURL`
(clients plus an error that the code discards). -/
structure LoadEnv where
  rawurl : String
  parseResult : Except ErrMsg URL
  pppByURL : URL → List Client × Option ErrMsg
  ipByURL : URL → List Client × Option ErrMsg

/-- `Load` (upnp.go:145–158): parse the location, returning the parse error
on failure; construct WANPPPConnection1 clients against the parsed URL only
(error discarded) and wrap the first; otherwise the same for
WANIPConnection1; fail with the no-gateway-at-URL error when both lists are
empty. -/
def Load (env : LoadEnv) : Except ErrMsg UpnpDevice :=
  match env.parseResult with
  | Except.error e => Except.error e
  | Except.ok loc =>
    match (env.pppByURL loc).1 with
    | c :: _ => Except.ok ⟨c⟩
    | [] =>
      match (env.ipByURL loc).1 with
      | c :: _ => Except.ok ⟨c⟩
      | [] => Except.error ("no UPnP-enabled gateway found at URL " ++ env.rawurl)

/-! ## Concrete fixtures (for witnesses, counterexamples and sanity checks) -/

/-- A well-behaved router client advertising base host `192.168.1.1:1900`. -/
def demoClient : Client where
  getExternalIPAddress := Except.ok "203.0.113.5"
  addPortMapping := fun _ _ _ _ _ _ _ _ => Except.ok ()
  deletePortMapping := fun _ _ _ => Except.ok ()
  urlBaseHost := "192.168.1.1:1900"
  location := "http://192.168.1.1:1900/rootDesc.xml"

/-- The handle wrapping `demoClient`. -/
def demoDevice : UpnpDevice := ⟨demoClient⟩

/-- One local interface holding `192.168.1.50/24`, whose subnet contains the
demo router's address. -/
def demoIfaces : List NetInterface :=
  [⟨Except.ok [NetAddr.ipNet ⟨⟨192, 168, 1, 50⟩, ⟨255, 255, 255, 0⟩⟩]⟩]

/-- A handle whose device advertises a bare IP literal with no port suffix. -/
def demoDeviceNoPort : UpnpDevice :=
  ⟨{ demoClient with urlBaseHost := "192.168.1.1" }⟩

/-- A second distinct router client, used to show the PPP candidate wins
over the IP candidate. -/
def altClient : Client :=
  { demoClient with urlBaseHost := "10.0.0.1:1900",
                    location := "http://10.0.0.1:1900/rootDesc.xml" }

/-- An environment where neither search finds any client. -/
def noGatewayEnv : DiscoverEnv :=
  ⟨⟨[], [], none⟩, ⟨[], [], none⟩⟩

/-- An environment where both searches find clients: PPP finds `demoClient`,
IP finds `altClient`. -/
def bothFoundEnv : DiscoverEnv :=
  ⟨⟨[demoClient], [], none⟩, ⟨[altClient], [], none⟩⟩

/-- An environment where the PPP search fails with an error while the IP
search finds a client. -/
def searchFailEnv : DiscoverEnv :=
  ⟨⟨[], [], some "search failed: network unreachable"⟩, ⟨[demoClient], [], none⟩⟩

/-- A load environment that parses and finds clients for both service
types. -/
def bothFoundLoadEnv : LoadEnv where
  rawurl := "http://192.168.1.1:1900/rootDesc.xml"
  parseResult := Except.ok ⟨"http://192.168.1.1:1900/rootDesc.xml"⟩
  pppByURL := fun _ => ([demoClient], none)
  ipByURL := fun _ => ([altClient], none)

/-- A load environment whose location does not parse. -/
def badParseLoadEnv : LoadEnv where
  rawurl := "http://bad url"
  parseResult := Except.error "parse \x22http://bad url\x22: invalid character in host name"
  pppByURL := fun _ => ([], none)
  ipByURL := fun _ => ([], none)

/-- A load environment that parses but constructs no client of either
type. -/
def emptyLoadEnv : LoadEnv where
  rawurl := "http://192.0.2.9:1900/rootDesc.xml"
  parseResult := Except.ok ⟨"http://192.0.2.9:1900/rootDesc.xml"⟩
  pppByURL := fun _ => ([], some "connection refused")
  ipByURL := fun _ => ([], some "connection refused")

/-- A client whose remote actions fault: the external-IP query and both
deletions fail, and AddPortMapping faults on UDP only. -/
def faultyClient : Client where
  getExternalIPAddress := Except.error "ExternalIPAddress fault"
  addPortMapping := fun _ _ proto _ _ _ _ _ =>
    if proto = "UDP" then Except.error "AddPortMapping UDP fault" else Except.ok ()
  deletePortMapping := fun _ _ _ => Except.error "DeletePortMapping TCP fault"
  urlBaseHost := "192.168.1.1:1900"
  location := "http://192.168.1.1:1900/rootDesc.xml"

/-- All `*net.IPNet` addresses of the interfaces in enumeration order,
flattened (an interface whose `Addrs()` failed contributes nothing). -/
def flatAddrs : List NetInterface → List NetAddr
  | [] => []
  | i :: rest =>
    (match i.addrs with
     | Except.ok l => l
     | Except.error _ => []) ++ flatAddrs rest

/-! ## Sanity checks of the embedded standard-library helpers -/

example : splitHostPort "192.168.1.1:1900" = ("192.168.1.1", "1900", none) := by decide
example : splitHostPort "192.168.1.1" = ("", "", some "missing port in address") := by decide
example : parseIP "192.168.1.1" = some ⟨192, 168, 1, 1⟩ := by decide
example : parseIP "" = none := by decide
example : parseIP "not-an-ip" = none := by decide
example : getInternalIP demoDevice (Except.ok demoIfaces) = Except.ok "192.168.1.50" := by
  rfl

/-! ## Claims about the Gateway Client (C1, C5, C9) -/

/-- C1: `Forward(p, desc)` first resolves the caller's internal IP, then
invokes AddPortMapping for TCP with external port = internal port = `p`,
target = the resolved internal IP, enabled = true, lease duration = 0; if
the TCP invocation fails, UDP is not attempted (the action trace holds only
the TCP call) and the TCP error is returned; if TCP succeeds, the same
action is invoked for UDP with the same arguments and the overall result is
the UDP result, so `Forward` succeeds exactly when both invocations
succeed. -/
theorem forward_invokes_tcp_then_udp (u : UpnpDevice)
    (ifacesRes : Except ErrMsg (List NetInterface)) (port : Nat) (desc ip : String)
    (h : getInternalIP u ifacesRes = Except.ok ip) :
    (∀ e, u.client.addPortMapping "" port "TCP" port ip true desc 0 = Except.error e →
      Forward u ifacesRes port desc =
        (Except.error e, [Action.addPortMapping "" port "TCP" port ip true desc 0])) ∧
    (u.client.addPortMapping "" port "TCP" port ip true desc 0 = Except.ok () →
      Forward u ifacesRes port desc =
        (u.client.addPortMapping "" port "UDP" port ip true desc 0,
         [Action.addPortMapping "" port "TCP" port ip true desc 0,
          Action.addPortMapping "" port "UDP" port ip true desc 0])) := by
  constructor
  · intro e htcp
    simp only [Forward, h, htcp]
  · intro htcp
    simp only [Forward, h, htcp]

/-- Witness for C1 at the demo fixture: both invocations succeed and the
trace holds the TCP action then the UDP action. -/
theorem forward_invokes_tcp_then_udp_witness :
    Forward demoDevice (Except.ok demoIfaces) 9001 "upnp test" =
      (Except.ok (),
       [Action.addPortMapping "" 9001 "TCP" 9001 "192.168.1.50" true "upnp test" 0,
        Action.addPortMapping "" 9001 "UDP" 9001 "192.168.1.50" true "upnp test" 0]) :=
  (forward_invokes_tcp_then_udp demoDevice (Except.ok demoIfaces) 9001 "upnp test"
    "192.168.1.50" rfl).2 rfl

/-- C5: `Clear(p)` invokes DeletePortMapping for TCP first and then for UDP,
each with only the empty remote host, the external port `p` and the
protocol; if the TCP deletion fails, UDP is not attempted and the TCP error
is returned; otherwise the UDP deletion's result is returned. -/
theorem clear_deletes_tcp_then_udp (u : UpnpDevice) (port : Nat) :
    (∀ e, u.client.deletePortMapping "" port "TCP" = Except.error e →
      Clear u port = (Except.error e, [Action.deletePortMapping "" port "TCP"])) ∧
    (u.client.deletePortMapping "" port "TCP" = Except.ok () →
      Clear u port = (u.client.deletePortMapping "" port "UDP",
        [Action.deletePortMapping "" port "TCP",
         Action.deletePortMapping "" port "UDP"])) := by
  constructor
  · intro e htcp
    simp only [Clear, htcp]
  · intro htcp
    simp only [Clear, htcp]

/-- Witness for C5 at the demo fixture: both deletions succeed and the trace
holds the TCP deletion then the UDP deletion. -/
theorem clear_deletes_tcp_then_udp_witness :
    Clear demoDevice 9001 =
      (Except.ok (),
       [Action.deletePortMapping "" 9001 "TCP",
        Action.deletePortMapping "" 9001 "UDP"]) :=
  (clear_deletes_tcp_then_udp demoDevice 9001).2 rfl

/-- C9: when internal-IP resolution fails, `Forward(p, desc)` returns that
resolution error and issues no AddPortMapping action for either protocol
(empty action trace), so no router-side mapping state is created. -/
theorem forward_skips_mappings_on_resolution_failure (u : UpnpDevice)
    (ifacesRes : Except ErrMsg (List NetInterface)) (port : Nat) (desc : String)
    (e : ErrMsg) (h : getInternalIP u ifacesRes = Except.error e) :
    Forward u ifacesRes port desc = (Except.error e, []) := by
  simp only [Forward, h]

/-- Witness for C9: a device advertising a base host with no port makes
resolution fail, and `Forward` returns that error with an empty trace. -/
theorem forward_skips_mappings_on_resolution_failure_witness :
    Forward demoDeviceNoPort (Except.ok demoIfaces) 9001 "upnp test" =
      (Except.error "could not determine router's internal IP", []) :=
  forward_skips_mappings_on_resolution_failure demoDeviceNoPort
    (Except.ok demoIfaces) 9001 "upnp test" _ rfl

/-! ## Claims about the Discovery Orchestrator (C2, C3, C6, C7) -/

/-- C2 counterexample: the claim says the IP-routing service is searched
first and the PPP-routing service second, but when both searches run (no
gateway responds) the issued order is PPP first, IP second. -/
theorem discover_ip_first_counterexample :
    (Discover noGatewayEnv).2 = [SearchAction.searchPPP, SearchAction.searchIP] ∧
    (Discover noGatewayEnv).2 ≠ [SearchAction.searchIP, SearchAction.searchPPP] := by
  decide

/-- C2 amended: `Discover()` always issues the PPP-routing search first; the
IP-routing search is issued second, and only when the PPP search yields no
clients. -/
theorem discover_searches_ppp_first (env : DiscoverEnv) :
    (Discover env).2.head? = some SearchAction.searchPPP ∧
    (env.pppSearch.clients = [] →
      (Discover env).2 = [SearchAction.searchPPP, SearchAction.searchIP]) ∧
    (env.pppSearch.clients ≠ [] → (Discover env).2 = [SearchAction.searchPPP]) := by
  refine ⟨?_, ?_, ?_⟩ <;>
    · cases hp : env.pppSearch.clients <;>
        cases hi : env.ipSearch.clients <;>
        simp [Discover, hp, hi]

/-- Witness for the amended C2 at `noGatewayEnv`: both searches issued, PPP
first. -/
theorem discover_searches_ppp_first_witness :
    (Discover noGatewayEnv).2 = [SearchAction.searchPPP, SearchAction.searchIP] :=
  (discover_searches_ppp_first noGatewayEnv).2.1 rfl

/-- C3: the selection policy of both `Discover` and `Load` prefers a
non-empty PPP-routing client list over the IP-routing one, and always takes
the chosen list's first element as the handle's client. -/
theorem selection_prefers_ppp_first_element (env : DiscoverEnv) (lenv : LoadEnv)
    (loc : URL) :
    (∀ c rest, env.pppSearch.clients = c :: rest → (Discover env).1 = Except.ok ⟨c⟩) ∧
    (∀ c rest, env.pppSearch.clients = [] → env.ipSearch.clients = c :: rest →
      (Discover env).1 = Except.ok ⟨c⟩) ∧
    (∀ c rest, lenv.parseResult = Except.ok loc → (lenv.pppByURL loc).1 = c :: rest →
      Load lenv = Except.ok ⟨c⟩) ∧
    (∀ c rest, lenv.parseResult = Except.ok loc → (lenv.pppByURL loc).1 = [] →
      (lenv.ipByURL loc).1 = c :: rest → Load lenv = Except.ok ⟨c⟩) := by
  refine ⟨?_, ?_, ?_, ?_⟩
  · intro c rest hp
    simp [Discover, hp]
  · intro c rest hp hi
    simp [Discover, hp, hi]
  · intro c rest hl hp
    simp [Load, hl, hp]
  · intro c rest hl hp hi
    simp [Load, hl, hp, hi]

/-- Witness for C3: with both lists non-empty, `Discover` and `Load` both
pick the PPP list's first client. -/
theorem selection_prefers_ppp_first_element_witness :
    (Discover bothFoundEnv).1 = Except.ok ⟨demoClient⟩ ∧
    Load bothFoundLoadEnv = Except.ok ⟨demoClient⟩ :=
  ⟨(selection_prefers_ppp_first_element bothFoundEnv bothFoundLoadEnv
      ⟨"http://192.168.1.1:1900/rootDesc.xml"⟩).1 demoClient [] rfl,
   (selection_prefers_ppp_first_element bothFoundEnv bothFoundLoadEnv
      ⟨"http://192.168.1.1:1900/rootDesc.xml"⟩).2.2.1 demoClient [] rfl rfl⟩

/-- C6: `Discover()` returns the first entry of the first non-empty search
result set (in search order) wrapped as a single handle, and fails with the
no-gateway error exactly when both searches yield no clients. -/
theorem discover_first_nonempty_or_no_gateway (env : DiscoverEnv) :
    ((Discover env).1 = Except.error "no UPnP-enabled gateway found" ↔
      env.pppSearch.clients = [] ∧ env.ipSearch.clients = []) ∧
    (∀ c, (if env.pppSearch.clients.isEmpty then env.ipSearch.clients
           else env.pppSearch.clients).head? = some c →
      (Discover env).1 = Except.ok ⟨c⟩) := by
  constructor
  · cases hp : env.pppSearch.clients <;> cases hi : env.ipSearch.clients <;>
      simp [Discover, hp, hi]
  · intro c hc
    cases hp : env.pppSearch.clients <;> cases hi : env.ipSearch.clients <;>
      simp [hp, hi] at hc <;> simp [Discover, hp, hi, hc]

/-- Witness for C6: with only the IP search non-empty, its first client is
returned; and at `noGatewayEnv` the no-gateway error is produced. -/
theorem discover_first_nonempty_or_no_gateway_witness :
    (Discover ⟨⟨[], [], none⟩, ⟨[altClient], [], none⟩⟩).1 = Except.ok ⟨altClient⟩ ∧
    (Discover noGatewayEnv).1 = Except.error "no UPnP-enabled gateway found" :=
  ⟨(discover_first_nonempty_or_no_gateway ⟨⟨[], [], none⟩, ⟨[altClient], [], none⟩⟩).2
      altClient rfl,
   (discover_first_nonempty_or_no_gateway noGatewayEnv).1.mpr ⟨rfl, rfl⟩⟩

/-- C7: `Load(location)` returns the parse error when the location does not
parse; when it parses, `Load` queries the by-URL constructors against the
parsed URL only, returns the first constructed client (PPP first, IP
second) as a handle, and fails with the no-gateway-at-URL error when both
constructions yield no client. -/
theorem load_parse_then_url_only (env : LoadEnv) :
    (∀ e, env.parseResult = Except.error e → Load env = Except.error e) ∧
    (∀ loc, env.parseResult = Except.ok loc →
      (∀ c rest, (env.pppByURL loc).1 = c :: rest → Load env = Except.ok ⟨c⟩) ∧
      ((env.pppByURL loc).1 = [] →
        (∀ c rest, (env.ipByURL loc).1 = c :: rest → Load env = Except.ok ⟨c⟩) ∧
        ((env.ipByURL loc).1 = [] →
          Load env =
            Except.error ("no UPnP-enabled gateway found at URL " ++ env.rawurl)))) := by
  constructor
  · intro e he
    simp [Load, he]
  · intro loc hl
    refine ⟨?_, ?_⟩
    · intro c rest hp
      simp [Load, hl, hp]
    · intro hp
      refine ⟨?_, ?_⟩
      · intro c rest hi
        simp [Load, hl, hp, hi]
      · intro hi
        simp [Load, hl, hp, hi]

/-- Witness for C7: the parse error propagates, and with both constructions
empty the no-gateway-at-URL error names the raw location. -/
theorem load_parse_then_url_only_witness :
    Load badParseLoadEnv =
      Except.error "parse \x22http://bad url\x22: invalid character in host name" ∧
    Load emptyLoadEnv =
      Except.error
        "no UPnP-enabled gateway found at URL http://192.0.2.9:1900/rootDesc.xml" :=
  ⟨(load_parse_then_url_only badParseLoadEnv).1 _ rfl,
   (((load_parse_then_url_only emptyLoadEnv).2 ⟨"http://192.0.2.9:1900/rootDesc.xml"⟩
      rfl).2 rfl).2 rfl⟩

/-! ## Claims about the Internal Address Resolver (C4, C10) -/

/-- Scanning a concatenation finds the first match of the first part, else
scans the second part. -/
theorem firstContaining_append (devIP : IPv4) (l1 l2 : List NetAddr) :
    firstContaining devIP (l1 ++ l2) =
      match firstContaining devIP l1 with
      | some s => some s
      | none => firstContaining devIP l2 := by
  induction l1 with
  | nil => rfl
  | cons a rest ih =>
    cases a with
    | ipNet n =>
      by_cases hc : n.contains devIP <;> simp [firstContaining, hc, ih]
    | other => simp [firstContaining, ih]

/-- When every interface enumerates successfully, the per-interface scan of
`getInternalIPAux` agrees with one scan of the flattened address list. -/
theorem getInternalIPAux_flat (devIP : IPv4) (ifaces : List NetInterface)
    (hok : ∀ i ∈ ifaces, ∃ l, i.addrs = Except.ok l) :
    getInternalIPAux devIP ifaces =
      match firstContaining devIP (flatAddrs ifaces) with
      | some s => Except.ok s
      | none => Except.error "could not determine internal IP" := by
  induction ifaces with
  | nil => rfl
  | cons i rest ih =>
    obtain ⟨l, hl⟩ := hok i (List.mem_cons_self i rest)
    have hrest : ∀ j ∈ rest, ∃ l2, j.addrs = Except.ok l2 :=
      fun j hj => hok j (List.mem_cons_of_mem i hj)
    simp only [getInternalIPAux, flatAddrs, hl, firstContaining_append]
    cases hfc : firstContaining devIP l with
    | some s => simp
    | none => simpa using ih hrest

/-- C4: `getInternalIP` parses the host portion of the device's advertised
base host as an IP literal, failing with the invalid-device-address error
(`"could not determine router's internal IP"`) when it is not one;
otherwise it scans all local interfaces' addresses in order and returns the
first interface address whose subnet contains the parsed device address,
failing with the unresolvable error (`"could not determine internal IP"`)
when no subnet contains it. -/
theorem getInternalIP_matches_resolver_spec (u : UpnpDevice)
    (ifaces : List NetInterface)
    (hok : ∀ i ∈ ifaces, ∃ l, i.addrs = Except.ok l) :
    (parseIP (splitHostPort u.client.urlBaseHost).1 = none →
      getInternalIP u (Except.ok ifaces) =
        Except.error "could not determine router's internal IP") ∧
    (∀ devIP, parseIP (splitHostPort u.client.urlBaseHost).1 = some devIP →
      getInternalIP u (Except.ok ifaces) =
        match firstContaining devIP (flatAddrs ifaces) with
        | some s => Except.ok s
        | none => Except.error "could not determine internal IP") := by
  constructor
  · intro hnone
    simp [getInternalIP, hnone]
  · intro devIP hsome
    simp only [getInternalIP, hsome]
    exact getInternalIPAux_flat devIP ifaces hok

/-- Witness for C4 at the demo fixture: the device address `192.168.1.1`
lies in the interface's `192.168.1.50/24` subnet, so that interface's
address is returned. -/
theorem getInternalIP_matches_resolver_spec_witness :
    getInternalIP demoDevice (Except.ok demoIfaces) = Except.ok "192.168.1.50" :=
  (getInternalIP_matches_resolver_spec demoDevice demoIfaces
      (fun i hi => ⟨[NetAddr.ipNet ⟨⟨192, 168, 1, 50⟩, ⟨255, 255, 255, 0⟩⟩],
        by rw [List.mem_singleton.mp hi]⟩)).2
    ⟨192, 168, 1, 1⟩ rfl

/-- `splitHostPort` either succeeds or returns the empty host string. -/
theorem splitHostPort_shape (s : String) :
    (splitHostPort s).2.2 = none ∨ (splitHostPort s).1 = "" := by
  simp only [splitHostPort]
  repeat' split
  all_goals simp

/-- Every error exit of `splitHostPort` returns the empty host string. -/
theorem splitHostPort_err_host (s : String) (w : ErrMsg)
    (h : (splitHostPort s).2.2 = some w) : (splitHostPort s).1 = "" := by
  rcases splitHostPort_shape s with hn | he
  · rw [hn] at h
    exact absurd h (Option.noConfusion)
  · exact he

/-- C10: when the device's advertised base host is not of the form
`host:port`, the split error is discarded, the empty host fails IP parsing,
and resolution fails with the router-internal-IP error even when the host
is a valid IP literal; hence `Forward` fails (with that error, issuing no
router action) whenever the advertised base host lacks an explicit port. -/
theorem missing_port_blocks_resolution (u : UpnpDevice)
    (ifacesRes : Except ErrMsg (List NetInterface)) (port : Nat) (desc : String)
    (w : ErrMsg) (h : (splitHostPort u.client.urlBaseHost).2.2 = some w) :
    getInternalIP u ifacesRes =
      Except.error "could not determine router's internal IP" ∧
    Forward u ifacesRes port desc =
      (Except.error "could not determine router's internal IP", []) := by
  have hh : (splitHostPort u.client.urlBaseHost).1 = "" :=
    splitHostPort_err_host u.client.urlBaseHost w h
  have hres : getInternalIP u ifacesRes =
      Except.error "could not determine router's internal IP" := by
    unfold getInternalIP
    rw [hh]
    rfl
  exact ⟨hres, by simp only [Forward, hres]⟩

/-- Witness for C10: the base host `192.168.1.1` is a valid IP literal, yet
with no port suffix the split fails and `Forward` fails with the
router-internal-IP error. -/
theorem missing_port_blocks_resolution_witness :
    parseIP "192.168.1.1" = some ⟨192, 168, 1, 1⟩ ∧
    Forward demoDeviceNoPort (Except.ok demoIfaces) 9002 "upnp test" =
      (Except.error "could not determine router's internal IP", []) :=
  ⟨by decide,
   (missing_port_blocks_resolution demoDeviceNoPort (Except.ok demoIfaces) 9002
      "upnp test" "missing port in address" rfl).2⟩

/-! ## Claim about error propagation (C8) -/

/-- C8 counterexample: the PPP search collaborator fails inside `Discover`,
yet `Discover` returns success — the collaborator error is silently
discarded (`pppclients, _, _ :=`), never reaching the caller. -/
theorem discover_suppresses_search_error :
    searchFailEnv.pppSearch.err = some "search failed: network unreachable" ∧
    (Discover searchFailEnv).1 = Except.ok ⟨demoClient⟩ :=
  ⟨rfl, rfl⟩

/-- C8 amended: failures of the remote control actions and of local
interface enumeration are returned verbatim to the immediate caller —
`ExternalIP` returns the remote result unchanged; a resolution failure, a
TCP AddPortMapping failure or a UDP AddPortMapping failure is returned by
`Forward`; a `net.Interfaces()` failure is returned by `getInternalIP`
(once the device host parses); a TCP or UDP DeletePortMapping failure is
returned by `Clear`; and a location-parse failure is returned by `Load` —
and nothing is retried.  However the search errors of the toolkit
constructors inside `Discover`/`Load` and the host-split error inside
`getInternalIP` are discarded, not returned. -/
theorem error_propagation_amended (u : UpnpDevice)
    (ifacesRes : Except ErrMsg (List NetInterface)) (port : Nat) (desc : String)
    (e : ErrMsg) (lenv : LoadEnv) :
    (ExternalIP u = u.client.getExternalIPAddress) ∧
    (getInternalIP u ifacesRes = Except.error e →
      (Forward u ifacesRes port desc).1 = Except.error e) ∧
    (∀ devIP, parseIP (splitHostPort u.client.urlBaseHost).1 = some devIP →
      getInternalIP u (Except.error e) = Except.error e) ∧
    (∀ ip, getInternalIP u ifacesRes = Except.ok ip →
      u.client.addPortMapping "" port "TCP" port ip true desc 0 = Except.error e →
      (Forward u ifacesRes port desc).1 = Except.error e) ∧
    (∀ ip, getInternalIP u ifacesRes = Except.ok ip →
      u.client.addPortMapping "" port "TCP" port ip true desc 0 = Except.ok () →
      u.client.addPortMapping "" port "UDP" port ip true desc 0 = Except.error e →
      (Forward u ifacesRes port desc).1 = Except.error e) ∧
    (u.client.deletePortMapping "" port "TCP" = Except.error e →
      (Clear u port).1 = Except.error e) ∧
    (u.client.deletePortMapping "" port "TCP" = Except.ok () →
      u.client.deletePortMapping "" port "UDP" = Except.error e →
      (Clear u port).1 = Except.error e) ∧
    (lenv.parseResult = Except.error e → Load lenv = Except.error e) := by
  refine ⟨rfl, ?_, ?_, ?_, ?_, ?_, ?_, ?_⟩
  · intro h
    simp [Forward, h]
  · intro devIP hp
    simp [getInternalIP, hp]
  · intro ip hres htcp
    simp [Forward, hres, htcp]
  · intro ip hres htcp hudp
    simp [Forward, hres, htcp, hudp]
  · intro htcp
    simp [Clear, htcp]
  · intro htcp hudp
    simp [Clear, htcp, hudp]
  · intro hl
    simp [Load, hl]

/-- Witness for the amended C8: the faulty client's remote failures surface
verbatim from `ExternalIP`, `Forward` (UDP half) and `Clear` (TCP half),
and the bad-parse load environment's parse error surfaces from `Load`. -/
theorem error_propagation_amended_witness :
    ExternalIP ⟨faultyClient⟩ = Except.error "ExternalIPAddress fault" ∧
    (Forward ⟨faultyClient⟩ (Except.ok demoIfaces) 9001 "upnp test").1 =
      Except.error "AddPortMapping UDP fault" ∧
    (Clear ⟨faultyClient⟩ 9001).1 = Except.error "DeletePortMapping TCP fault" ∧
    Load badParseLoadEnv =
      Except.error "parse \x22http://bad url\x22: invalid character in host name" := by
  have h := error_propagation_amended ⟨faultyClient⟩ (Except.ok demoIfaces) 9001
    "upnp test" "ExternalIPAddress fault" badParseLoadEnv
  have h2 := error_propagation_amended ⟨faultyClient⟩ (Except.ok demoIfaces) 9001
    "upnp test" "AddPortMapping UDP fault" badParseLoadEnv
  have h3 := error_propagation_amended ⟨faultyClient⟩ (Except.ok demoIfaces) 9001
    "upnp test" "DeletePortMapping TCP fault" badParseLoadEnv
  have h4 := error_propagation_amended ⟨faultyClient⟩ (Except.ok demoIfaces) 9001
    "upnp test" "parse \x22http://bad url\x22: invalid character in host name"
    badParseLoadEnv
  refine ⟨?_, ?_, ?_, ?_⟩
  · rw [h.1]
    rfl
  · exact h2.2.2.2.2.1 "192.168.1.50" rfl rfl rfl
  · exact h3.2.2.2.2.2.1 rfl
  · exact h4.2.2.2.2.2.2.2 rfl

end GoUpnp
